import Mathlib

/-!
Verification of lc-streamliner-rs (src/main.rs): the nom-based intent
parser author_get, the bot-identity classifiers, the message event handler,
and the framework commands, modelled as pure functions that emit a trace of
outbound transport effects.  Machine strings are modelled as List Char and
the transport (serenity say / react calls) as an Effect trace plus an
explicitly passed call result, so that error propagation is observable.
-/

namespace LcStreamliner

instance {ε α : Type} [DecidableEq ε] [DecidableEq α] : DecidableEq (Except ε α) := fun a b =>
  match a, b with
  | Except.error e, Except.error f =>
    if h : e = f then isTrue (by rw [h]) else isFalse (by intro hh; cases hh; exact h rfl)
  | Except.error _, Except.ok _ => isFalse (by intro hh; cases hh)
  | Except.ok _, Except.error _ => isFalse (by intro hh; cases hh)
  | Except.ok x, Except.ok y =>
    if h : x = y then isTrue (by rw [h]) else isFalse (by intro hh; cases hh; exact h rfl)

/-- Model of nom bytes::complete::tag: consume the literal t from the
front of the input or fail. -/
def tag (t input : List Char) : Option (List Char) :=
  if t.isPrefixOf input then some (input.drop t.length) else none

/-- Index of the first occurrence of t as a contiguous sublist of the
input (none when t never occurs). -/
def findSub (t : List Char) : List Char → Option Nat
  | [] => if t.isEmpty then some 0 else none
  | c :: rest =>
    if t.isPrefixOf (c :: rest) then some 0
    else (findSub t rest).map (fun i => i + 1)

/-- Model of nom bytes::complete::take_until1: return the non-empty input
slice before the first occurrence of t, not consuming t; fail when t does
not occur or when the slice would be empty. -/
def takeUntil1 (t input : List Char) : Option (List Char × List Char) :=
  match findSub t input with
  | some i => if i = 0 then none else some (input.take i, input.drop i)
  | none => none

/-- author_get from src/main.rs: consume "Looking up ", the text up to the
first " by ", the separator " by ", then return the non-empty text before
the first ".".  Like a nom IResult, the result is (remaining input, author). -/
def author_get (input : List Char) : Option (List Char × List Char) :=
  match tag ("Looking up ".toList) input with
  | none => none
  | some input1 =>
    match takeUntil1 (" by ".toList) input1 with
    | none => none
    | some (_, input2) =>
      match tag (" by ".toList) input2 with
      | none => none
      | some input3 =>
        match takeUntil1 (".".toList) input3 with
        | none => none
        | some (author, input4) => some (input4, author)

/-- BOTS entry "sriracha". -/
def BOTS_sriracha : Nat := 607661949194469376

/-- BOTS entry "ohsheet". -/
def BOTS_ohsheet : Nat := 640402425395675178

/-- BOTS entry "lc". -/
def BOTS_lc : Nat := 661826254215053324

/-- BOTS entry "fort checker". -/
def BOTS_fort_checker : Nat := 1014282115086565486

/-- is_sriracha_bot from src/main.rs: the author id is sriracha or ohsheet. -/
def is_sriracha_bot (author_id : Nat) : Bool :=
  [BOTS_sriracha, BOTS_ohsheet].contains author_id

/-- is_lc_bot from src/main.rs: the author id is ohsheet, lc or fort checker. -/
def is_lc_bot (author_id : Nat) : Bool :=
  [BOTS_ohsheet, BOTS_lc, BOTS_fort_checker].contains author_id

/-- The two global RwLock slots LAST_LC and LAST_SRIRACHA_EMBED_MESSAGE.
The stored Message is represented by its id, the only part the reaction
commands need to address it. -/
structure SessionState where
  last_lc : List Char
  last_sriracha_embed_message : Option Nat
deriving DecidableEq

/-- An inbound serenity Message as the handler observes it: author id,
content, whether msg.embeds.first() is some, message id and channel id. -/
structure InMessage where
  author_id : Nat
  content : List Char
  has_embed : Bool
  id : Nat
  channel_id : Nat
deriving DecidableEq

/-- A serenity transport error (the error payload is irrelevant here). -/
inductive TransportErr where
  | fail (code : Nat)
deriving DecidableEq

/-- Outbound transport effects.  thread_sleep records the call to the
blocking std::thread::sleep (seconds), say a channel_id.say, and the two
reaction effects the calls made on the tracked message. -/
inductive Effect where
  | thread_sleep (secs : Nat)
  | say (channel : Nat) (text : List Char)
  | delete_reaction_emoji (message : Nat) (emoji : List Char)
  | react (message : Nat) (emoji : List Char)
deriving DecidableEq

/-- Handler::message from src/main.rs.  The result of the (at most one)
channel_id.say call is passed in and, as in the source (let _ = ...),
discarded; the handler returns the updated slots and the effect trace. -/
def handler_message (msg : InMessage) (_sayResult : Except TransportErr Unit)
    (st : SessionState) : SessionState × List Effect :=
  if is_sriracha_bot msg.author_id then
    if (".lc".toList).isPrefixOf msg.content then
      ({ st with last_lc := msg.content }, [])
    else if msg.has_embed then
      ({ st with last_sriracha_embed_message := some msg.id }, [])
    else (st, [])
  else if is_lc_bot msg.author_id && ("Looking up".toList).isPrefixOf msg.content then
    match author_get msg.content with
    | some (_, author) =>
      (st, [Effect.thread_sleep 3,
            Effect.say msg.channel_id ("sauce -qa ".toList ++ author)])
    | none =>
      (st, [Effect.say msg.channel_id ("Could not find author".toList)])
  else (st, [])

/-- Error kinds of core::num::ParseIntError relevant to u32 parsing. -/
inductive IntErrorKind where
  | empty
  | invalidDigit
  | posOverflow
deriving DecidableEq

/-- serenity ArgError: end-of-stream or a wrapped parse error. -/
inductive ArgError where
  | eos
  | parse (kind : IntErrorKind)
deriving DecidableEq

/-- The error side of a serenity CommandResult as the commands produce it:
either the argument error returned through the question-mark operator on
get_id, or a transport error returned through the question mark on say or
react. -/
inductive CommandError where
  | arg (e : ArgError)
  | transport (e : TransportErr)
deriving DecidableEq

/-- Numeric value of a decimal digit string, most significant digit first. -/
def digitsVal (ds : List Char) : Nat :=
  ds.foldl (fun acc c => 10 * acc + (c.toNat - 48)) 0

/-- The optional leading plus sign accepted by Rust integer parsing. -/
def strip_plus (s : List Char) : List Char :=
  if s.head? = some '+' then s.tail else s

/-- Model of u32::from_str (via Args::single::<u32>): empty input fails,
an optional leading plus sign is stripped, the rest must be all decimal
digits, and the value must fit in unsigned 32 bits. -/
def u32_from_str (s : List Char) : Except IntErrorKind Nat :=
  if s.isEmpty then Except.error IntErrorKind.empty
  else if (strip_plus s).isEmpty then Except.error IntErrorKind.invalidDigit
  else if (strip_plus s).all Char.isDigit then
    if digitsVal (strip_plus s) ≤ 4294967295 then Except.ok (digitsVal (strip_plus s))
    else Except.error IntErrorKind.posOverflow
  else Except.error IntErrorKind.invalidDigit

/-- get_id from src/main.rs: Ok(1) when the argument list is empty, else
args.single::<u32>(). -/
def get_id (arg : Option (List Char)) : Except ArgError Nat :=
  match arg with
  | none => Except.ok 1
  | some s =>
    match u32_from_str s with
    | Except.ok n => Except.ok n
    | Except.error e => Except.error (ArgError.parse e)

/-- Decimal rendering of the u32 argument inside the format strings. -/
def natToChars (n : Nat) : List Char := Nat.toDigits 10 n

/-- Common command shape: send one formatted string with the
question-mark operator on the say result. -/
def send_command (channel : Nat) (text : List Char)
    (sayResult : Except TransportErr Unit) : List Effect × Except CommandError Unit :=
  ([Effect.say channel text],
   match sayResult with
   | Except.ok _ => Except.ok ()
   | Except.error e => Except.error (CommandError.transport e))

/-- lc_list from src/main.rs: sends "sauce lc 3#{id}". -/
def lc_list (channel : Nat) (arg : Option (List Char))
    (sayResult : Except TransportErr Unit) : List Effect × Except CommandError Unit :=
  match get_id arg with
  | Except.error e => ([], Except.error (CommandError.arg e))
  | Except.ok n => send_command channel ("sauce lc 3#".toList ++ natToChars n) sayResult

/-- lc_move from src/main.rs: sends "sauce move 3#{id} 4". -/
def lc_move (channel : Nat) (arg : Option (List Char))
    (sayResult : Except TransportErr Unit) : List Effect × Except CommandError Unit :=
  match get_id arg with
  | Except.error e => ([], Except.error (CommandError.arg e))
  | Except.ok n =>
    send_command channel ("sauce move 3#".toList ++ natToChars n ++ " 4".toList) sayResult

/-- lc_delete from src/main.rs: sends "sauce delete 3#{id}". -/
def lc_delete (channel : Nat) (arg : Option (List Char))
    (sayResult : Except TransportErr Unit) : List Effect × Except CommandError Unit :=
  match get_id arg with
  | Except.error e => ([], Except.error (CommandError.arg e))
  | Except.ok n =>
    send_command channel ("sauce delete 3#".toList ++ natToChars n) sayResult

/-- lc_retry from src/main.rs: re-sends the stored LAST_LC text verbatim. -/
def lc_retry (channel : Nat) (st : SessionState)
    (sayResult : Except TransportErr Unit) : List Effect × Except CommandError Unit :=
  send_command channel st.last_lc sayResult

/-- st_list from src/main.rs: sends "sauce 2#{id}". -/
def st_list (channel : Nat) (arg : Option (List Char))
    (sayResult : Except TransportErr Unit) : List Effect × Except CommandError Unit :=
  match get_id arg with
  | Except.error e => ([], Except.error (CommandError.arg e))
  | Except.ok n => send_command channel ("sauce 2#".toList ++ natToChars n) sayResult

/-- st_move from src/main.rs: sends "sauce move 2#{id} 3". -/
def st_move (channel : Nat) (arg : Option (List Char))
    (sayResult : Except TransportErr Unit) : List Effect × Except CommandError Unit :=
  match get_id arg with
  | Except.error e => ([], Except.error (CommandError.arg e))
  | Except.ok n =>
    send_command channel ("sauce move 2#".toList ++ natToChars n ++ " 3".toList) sayResult

/-- st_delete from src/main.rs: sends "sauce delete 2#{id}". -/
def st_delete (channel : Nat) (arg : Option (List Char))
    (sayResult : Except TransportErr Unit) : List Effect × Except CommandError Unit :=
  match get_id arg with
  | Except.error e => ([], Except.error (CommandError.arg e))
  | Except.ok n =>
    send_command channel ("sauce delete 2#".toList ++ natToChars n) sayResult

/-- qc_list from src/main.rs: sends "sauce 1#{id}". -/
def qc_list (channel : Nat) (arg : Option (List Char))
    (sayResult : Except TransportErr Unit) : List Effect × Except CommandError Unit :=
  match get_id arg with
  | Except.error e => ([], Except.error (CommandError.arg e))
  | Except.ok n => send_command channel ("sauce 1#".toList ++ natToChars n) sayResult

/-- qc_move from src/main.rs: sends "sauce move 1#{id} 2". -/
def qc_move (channel : Nat) (arg : Option (List Char))
    (sayResult : Except TransportErr Unit) : List Effect × Except CommandError Unit :=
  match get_id arg with
  | Except.error e => ([], Except.error (CommandError.arg e))
  | Except.ok n =>
    send_command channel ("sauce move 1#".toList ++ natToChars n ++ " 2".toList) sayResult

/-- qc_delete from src/main.rs: sends "sauce delete 1#{id}". -/
def qc_delete (channel : Nat) (arg : Option (List Char))
    (sayResult : Except TransportErr Unit) : List Effect × Except CommandError Unit :=
  match get_id arg with
  | Except.error e => ([], Except.error (CommandError.arg e))
  | Except.ok n =>
    send_command channel ("sauce delete 1#".toList ++ natToChars n) sayResult

/-- The US-flag emoji used by the en command. -/
def flag_us : List Char := "🇺🇸".toList

/-- The JP-flag emoji used by the jp command. -/
def flag_jp : List Char := "🇯🇵".toList

/-- en from src/main.rs: when a tracked message exists, remove all US-flag
reactions (result discarded, let _ = ...) then react with the US flag, the
question-mark operator applied to the react result; when no tracked
message exists, do nothing and succeed. -/
def en (st : SessionState) (_deleteResult reactResult : Except TransportErr Unit) :
    List Effect × Except CommandError Unit :=
  match st.last_sriracha_embed_message with
  | none => ([], Except.ok ())
  | some m =>
    ([Effect.delete_reaction_emoji m flag_us, Effect.react m flag_us],
     match reactResult with
     | Except.ok _ => Except.ok ()
     | Except.error e => Except.error (CommandError.transport e))

/-- jp from src/main.rs: same as en with the JP-flag emoji. -/
def jp (st : SessionState) (_deleteResult reactResult : Except TransportErr Unit) :
    List Effect × Except CommandError Unit :=
  match st.last_sriracha_embed_message with
  | none => ([], Except.ok ())
  | some m =>
    ([Effect.delete_reaction_emoji m flag_jp, Effect.react m flag_jp],
     match reactResult with
     | Except.ok _ => Except.ok ()
     | Except.error e => Except.error (CommandError.transport e))

/-! ### Helper lemmas about the nom combinator models -/

theorem isPrefixOf_append_self (t r : List Char) : t.isPrefixOf (t ++ r) = true := by
  induction t with
  | nil => simp [List.isPrefixOf]
  | cons c cs ih => simp [List.isPrefixOf, ih]

theorem drop_length_append (t r : List Char) : (t ++ r).drop t.length = r := by
  induction t with
  | nil => rfl
  | cons c cs ih => simp [ih]

theorem take_length_append (t r : List Char) : (t ++ r).take t.length = t := by
  induction t with
  | nil => rfl
  | cons c cs ih => simp [ih]

theorem tag_cancel (t r : List Char) : tag t (t ++ r) = some r := by
  simp [tag, isPrefixOf_append_self, drop_length_append]

theorem takeUntil1_at_head (t : List Char) (c : Char) (rest : List Char)
    (h : t.isPrefixOf (c :: rest) = true) : takeUntil1 t (c :: rest) = none := by
  simp [takeUntil1, findSub, h]

theorem takeUntil1_of_findSub (t input : List Char) (i : Nat)
    (h : findSub t input = some i) (hi : i ≠ 0) :
    takeUntil1 t input = some (input.take i, input.drop i) := by
  simp [takeUntil1, h, hi]

theorem takeUntil1_boundary (x r : List Char) (t : List Char)
    (hx : x.length ≠ 0) (hf : findSub t (x ++ (t ++ r)) = some x.length) :
    takeUntil1 t (x ++ (t ++ r)) = some (x, t ++ r) := by
  rw [takeUntil1_of_findSub t (x ++ (t ++ r)) x.length hf hx]
  rw [take_length_append, drop_length_append]

theorem takeUntil1_self_append (t y : List Char) (ht : t ≠ []) :
    takeUntil1 t (t ++ y) = none := by
  cases t with
  | nil => exact absurd rfl ht
  | cons c cs =>
    apply takeUntil1_at_head
    exact isPrefixOf_append_self (c :: cs) y

/-! ### Claim theorems -/

/-- C1 counterexample: the input "Looking up Widget by J. Smith." does not
parse to "J. Smith"; author_get stops at the first ".", returning author
"J" with remaining input ". Smith.". -/
theorem c1_counterexample :
    author_get ("Looking up Widget by J. Smith.".toList)
      = some ((". Smith.".toList), ("J".toList))
    ∧ ("J".toList) ≠ ("J. Smith".toList) := by
  exact ⟨by decide, by decide⟩

/-- C1 (amended): for a well-formed input "Looking up {X} by {Y}." in which
the first occurrence of " by " is the separator in front of Y (position
length X after the lead) and the first "." is the terminator right after Y
(position length Y), with X and Y non-empty, author_get succeeds and
returns exactly Y, the text strictly between the separator and the FIRST
following "." . -/
theorem c1_author_get_exact (x y : List Char)
    (hx : x.length ≠ 0)
    (hfx : findSub (" by ".toList) (x ++ (" by ".toList ++ (y ++ ['.'])))
      = some x.length)
    (hy : y.length ≠ 0)
    (hfy : findSub (".".toList) (y ++ ['.']) = some y.length) :
    author_get ("Looking up ".toList ++ (x ++ (" by ".toList ++ (y ++ ['.']))))
      = some (['.'], y) := by
  have h1 := tag_cancel ("Looking up ".toList) (x ++ (" by ".toList ++ (y ++ ['.'])))
  have h2 := takeUntil1_boundary x (y ++ ['.']) (" by ".toList) hx hfx
  have h3 := tag_cancel (" by ".toList) (y ++ ['.'])
  have h4 : takeUntil1 (".".toList) (y ++ ['.']) = some (y, ['.']) := by
    rw [takeUntil1_of_findSub (".".toList) (y ++ ['.']) y.length hfy hy]
    rw [show (y ++ ['.']).take y.length = y from take_length_append y ['.']]
    rw [show (y ++ ['.']).drop y.length = ['.'] from drop_length_append y ['.']]
  simp only [author_get, h1, h2, h3, h4]

/-- C1 witness: "Looking up Widget by Bar." is well-formed with X = Widget
and Y = Bar, and parses to exactly "Bar". -/
theorem c1_witness :
    author_get ("Looking up ".toList
        ++ ("Widget".toList ++ (" by ".toList ++ ("Bar".toList ++ ['.']))))
      = some (['.'], "Bar".toList) :=
  c1_author_get_exact ("Widget".toList) ("Bar".toList)
    (by decide) (by decide) (by decide) (by decide)

/-- C9: author_get succeeds only when both variable fields are non-empty:
an input whose text between "Looking up " and the first " by " is empty
fails, and an input whose text between " by " and the first following "."
is empty fails, even though all three fixed anchors are present. -/
theorem c9_nonempty_fields :
    (∀ y : List Char,
      author_get ("Looking up ".toList ++ (" by ".toList ++ y)) = none)
  ∧ (∀ x r : List Char, x.length ≠ 0 →
      findSub (" by ".toList) (x ++ (" by ".toList ++ ('.' :: r))) = some x.length →
      author_get ("Looking up ".toList ++ (x ++ (" by ".toList ++ ('.' :: r)))) = none) := by
  constructor
  · intro y
    have h1 := tag_cancel ("Looking up ".toList) (" by ".toList ++ y)
    have h2 : takeUntil1 (" by ".toList) (" by ".toList ++ y) = none :=
      takeUntil1_self_append (" by ".toList) y (by decide)
    simp only [author_get, h1, h2]
  · intro x r hx hf
    have h1 := tag_cancel ("Looking up ".toList) (x ++ (" by ".toList ++ ('.' :: r)))
    have h2 := takeUntil1_boundary x ('.' :: r) (" by ".toList) hx hf
    have h3 := tag_cancel (" by ".toList) ('.' :: r)
    have h4 : takeUntil1 (".".toList) ('.' :: r) = none :=
      takeUntil1_self_append (".".toList) r (by decide)
    simp only [author_get, h1, h2, h3, h4]

/-- C9 witness: "Looking up  by Y." (empty target field) fails, and
"Looking up X by ." (empty author field) fails. -/
theorem c9_witness :
    author_get ("Looking up ".toList ++ (" by ".toList ++ ("Y.".toList))) = none
  ∧ author_get ("Looking up ".toList ++ ("X".toList ++ (" by ".toList ++ ('.' :: [])))) = none :=
  ⟨c9_nonempty_fields.1 ("Y.".toList),
   c9_nonempty_fields.2 ("X".toList) [] (by decide) (by decide)⟩

theorem handler_confirmation (author i ch : Nat) (e : Bool)
    (r : Except TransportErr Unit) (st : SessionState) (content : List Char)
    (hs : is_sriracha_bot author = false) (hl : is_lc_bot author = true)
    (hp : ("Looking up".toList).isPrefixOf content = true) :
    handler_message ⟨author, content, e, i, ch⟩ r st =
      match author_get content with
      | some (_, a) =>
        (st, [Effect.thread_sleep 3, Effect.say ch ("sauce -qa ".toList ++ a)])
      | none => (st, [Effect.say ch ("Could not find author".toList)]) := by
  dsimp only [handler_message]
  rw [hs, hl, hp]
  simp

theorem handler_status_inert (author i ch : Nat) (r : Except TransportErr Unit)
    (st : SessionState) (content : List Char)
    (hs : is_sriracha_bot author = true)
    (hp : (".lc".toList).isPrefixOf content = false) :
    handler_message ⟨author, content, false, i, ch⟩ r st = (st, []) := by
  dsimp only [handler_message]
  rw [hs, hp]
  simp

/-- C2 counterexample: the ohsheet identity is one of the three registered
confirmation identities (is_lc_bot accepts it), yet a message from it with
text "Looking up Foo by Bar." produces no outbound send at all: the
handler's else-if chain routes it into the status-source branch, where a
text without the ".lc" trigger and without embeds does nothing. -/
theorem c2_counterexample :
    is_lc_bot BOTS_ohsheet = true
    ∧ handler_message ⟨BOTS_ohsheet, ("Looking up Foo by Bar.".toList), false, 5, 9⟩
        (Except.ok ()) ⟨[], none⟩ = (⟨[], none⟩, []) := by
  exact ⟨by decide, by decide⟩

/-- C2 (amended): for the two confirmation identities that are not also
status identities (lc and fort checker), a message "Looking up Foo by Bar."
makes the handler sleep 3 seconds and then send "sauce -qa Bar", and a
message "Looking up Foo by Bar" (no terminator) makes it immediately send
"Could not find author"; a message from the overlapping ohsheet identity
instead takes the status-source branch and sends nothing. -/
theorem c2_confirmation_routing (author i ch : Nat) (e : Bool)
    (r : Except TransportErr Unit) (st : SessionState)
    (h : author = BOTS_lc ∨ author = BOTS_fort_checker) :
    handler_message ⟨author, ("Looking up Foo by Bar.".toList), e, i, ch⟩ r st
      = (st, [Effect.thread_sleep 3, Effect.say ch ("sauce -qa Bar".toList)])
    ∧ handler_message ⟨author, ("Looking up Foo by Bar".toList), e, i, ch⟩ r st
      = (st, [Effect.say ch ("Could not find author".toList)])
    ∧ handler_message ⟨BOTS_ohsheet, ("Looking up Foo by Bar.".toList), false, i, ch⟩ r st
      = (st, []) := by
  have hthird := handler_status_inert BOTS_ohsheet i ch r st
    ("Looking up Foo by Bar.".toList) (by decide) (by decide)
  rcases h with h | h <;> subst h <;> refine ⟨?_, ?_, hthird⟩ <;>
    rw [handler_confirmation _ _ _ _ _ _ _ (by decide) (by decide) (by decide)] <;> rfl

/-- C2 witness: instantiated at the lc identity with concrete message and
state. -/
theorem c2_witness :
    handler_message ⟨BOTS_lc, ("Looking up Foo by Bar.".toList), false, 1, 2⟩
        (Except.ok ()) ⟨[], none⟩
      = (⟨[], none⟩, [Effect.thread_sleep 3, Effect.say 2 ("sauce -qa Bar".toList)]) :=
  (c2_confirmation_routing BOTS_lc 1 2 false (Except.ok ()) ⟨[], none⟩ (Or.inl rfl)).1

/-- C3 counterexample: a failing send is NOT always swallowed at its point
of call: lc_list applies the question-mark operator to the say result, so
a transport error becomes the command's returned error, and en does the
same with the react result; both propagate the failure to the caller. -/
theorem c3_counterexample :
    (lc_list 7 none (Except.error (TransportErr.fail 0))).2
      = Except.error (CommandError.transport (TransportErr.fail 0))
    ∧ (en ⟨[], some 3⟩ (Except.ok ()) (Except.error (TransportErr.fail 0))).2
      = Except.error (CommandError.transport (TransportErr.fail 0)) := by
  exact ⟨by decide, by decide⟩

/-- C3 (amended): the event router swallows its send failures (its result
does not depend on the say result and it has no error channel), and en/jp
swallow the reaction-removal failure (their result does not depend on it);
but every dispatcher command — lc_retry and each of the nine stage
commands, on any accepted argument — propagates a failing send to the
framework caller as the command's error result, and en/jp likewise
propagate a failing react-add whenever a tracked message exists. -/
theorem c3_error_swallowing :
    (∀ msg r r' st, handler_message msg r st = handler_message msg r' st)
    ∧ (∀ st dr dr' rr, en st dr rr = en st dr' rr)
    ∧ (∀ st dr dr' rr, jp st dr rr = jp st dr' rr)
    ∧ (∀ ch st te, (lc_retry ch st (Except.error te)).2
        = Except.error (CommandError.transport te))
    ∧ (∀ ch arg n te, get_id arg = Except.ok n →
        (lc_list ch arg (Except.error te)).2 = Except.error (CommandError.transport te)
        ∧ (lc_move ch arg (Except.error te)).2 = Except.error (CommandError.transport te)
        ∧ (lc_delete ch arg (Except.error te)).2 = Except.error (CommandError.transport te)
        ∧ (st_list ch arg (Except.error te)).2 = Except.error (CommandError.transport te)
        ∧ (st_move ch arg (Except.error te)).2 = Except.error (CommandError.transport te)
        ∧ (st_delete ch arg (Except.error te)).2 = Except.error (CommandError.transport te)
        ∧ (qc_list ch arg (Except.error te)).2 = Except.error (CommandError.transport te)
        ∧ (qc_move ch arg (Except.error te)).2 = Except.error (CommandError.transport te)
        ∧ (qc_delete ch arg (Except.error te)).2 = Except.error (CommandError.transport te))
    ∧ (∀ l m dr te, (en ⟨l, some m⟩ dr (Except.error te)).2
        = Except.error (CommandError.transport te))
    ∧ (∀ l m dr te, (jp ⟨l, some m⟩ dr (Except.error te)).2
        = Except.error (CommandError.transport te)) := by
  refine ⟨fun _ _ _ _ => rfl, fun _ _ _ _ => rfl, fun _ _ _ _ => rfl,
    fun _ _ _ => rfl, ?_, fun _ _ _ _ => rfl, fun _ _ _ _ => rfl⟩
  intro ch arg n te h
  refine ⟨?_, ?_, ?_, ?_, ?_, ?_, ?_, ?_, ?_⟩ <;>
    simp [lc_list, lc_move, lc_delete, st_list, st_move, st_delete,
      qc_list, qc_move, qc_delete, send_command, h]

/-- C3 witness: a concrete stage command (lc_move with the default
argument) returns the failing send's error, and jp with a tracked message
returns the failing react-add's error. -/
theorem c3_witness :
    (lc_move 0 none (Except.error (TransportErr.fail 1))).2
      = Except.error (CommandError.transport (TransportErr.fail 1))
    ∧ (jp ⟨[], some 3⟩ (Except.ok ()) (Except.error (TransportErr.fail 1))).2
      = Except.error (CommandError.transport (TransportErr.fail 1)) :=
  ⟨(c3_error_swallowing.2.2.2.2.1 0 none 1 (TransportErr.fail 1) rfl).2.1,
   c3_error_swallowing.2.2.2.2.2.2 [] 3 (Except.ok ()) (TransportErr.fail 1)⟩

/-- C4 counterexample: the lc (stage 3) list command does not send
"sauce 3#1"; it sends "sauce lc 3#1", with an extra "lc " token between
the verb and the stage number. -/
theorem c4_counterexample :
    (lc_list 0 none (Except.ok ())).1 = [Effect.say 0 ("sauce lc 3#1".toList)]
    ∧ ("sauce lc 3#1".toList) ≠ ("sauce 3#1".toList) := by
  exact ⟨by decide, by decide⟩

/-- C4 (amended): for every accepted argument n, qc_list sends
"sauce 1#{n}" and st_list sends "sauce 2#{n}", but lc_list sends
"sauce lc 3#{n}" (verb, then the extra token "lc ", then stage and n). -/
theorem c4_list_formats (ch : Nat) (arg : Option (List Char)) (n : Nat)
    (r : Except TransportErr Unit) (h : get_id arg = Except.ok n) :
    (qc_list ch arg r).1 = [Effect.say ch ("sauce 1#".toList ++ natToChars n)]
    ∧ (st_list ch arg r).1 = [Effect.say ch ("sauce 2#".toList ++ natToChars n)]
    ∧ (lc_list ch arg r).1 = [Effect.say ch ("sauce lc 3#".toList ++ natToChars n)] := by
  refine ⟨?_, ?_, ?_⟩ <;> simp [qc_list, st_list, lc_list, send_command, h]

/-- C4 witness: instantiated with no argument (n defaults to 1). -/
theorem c4_witness :
    (qc_list 0 none (Except.ok ())).1 = [Effect.say 0 ("sauce 1#".toList ++ natToChars 1)]
    ∧ (st_list 0 none (Except.ok ())).1 = [Effect.say 0 ("sauce 2#".toList ++ natToChars 1)]
    ∧ (lc_list 0 none (Except.ok ())).1 = [Effect.say 0 ("sauce lc 3#".toList ++ natToChars 1)] :=
  c4_list_formats 0 none 1 (Except.ok ()) rfl

/-- C5: lc-list with no argument sends "sauce lc 3#1"; lc-list 5 sends
"sauce lc 3#5"; qc-move 2 sends "sauce move 1#2 2"; st-delete with no
argument sends "sauce delete 2#1"; get_id defaults to 1 with no argument;
and an argument that does not parse as a u32 makes the command fail with
the argument error and send nothing. -/
theorem c5_stage_commands :
    (∀ ch r, (lc_list ch none r).1 = [Effect.say ch ("sauce lc 3#1".toList)])
    ∧ (∀ ch r, (lc_list ch (some ("5".toList)) r).1
        = [Effect.say ch ("sauce lc 3#5".toList)])
    ∧ (∀ ch r, (qc_move ch (some ("2".toList)) r).1
        = [Effect.say ch ("sauce move 1#2 2".toList)])
    ∧ (∀ ch r, (st_delete ch none r).1 = [Effect.say ch ("sauce delete 2#1".toList)])
    ∧ get_id none = Except.ok 1
    ∧ (∀ ch r s e, u32_from_str s = Except.error e →
        lc_list ch (some s) r = ([], Except.error (CommandError.arg (ArgError.parse e)))) := by
  refine ⟨fun ch r => rfl, fun ch r => rfl, fun ch r => rfl, fun ch r => rfl, rfl, ?_⟩
  intro ch r s e h
  simp [lc_list, get_id, h]

/-- C5 witness: the no-argument case and a concrete non-integer argument. -/
theorem c5_witness :
    (lc_list 0 none (Except.ok ())).1 = [Effect.say 0 ("sauce lc 3#1".toList)]
    ∧ lc_list 0 (some ("x".toList)) (Except.ok ())
      = ([], Except.error (CommandError.arg (ArgError.parse IntErrorKind.invalidDigit))) :=
  ⟨c5_stage_commands.1 0 (Except.ok ()),
   c5_stage_commands.2.2.2.2.2 0 (Except.ok ()) ("x".toList) IntErrorKind.invalidDigit
     (by decide)⟩

/-- C6: on a parsed confirmation message the handler's trace records the
call to the blocking std::thread::sleep (3 seconds) before the send; the
source calls std::thread::sleep, not a non-blocking timed suspension such
as tokio::time::sleep, so the executor worker thread is paused. -/
theorem c6_blocking_sleep :
    (handler_message ⟨BOTS_lc, ("Looking up Foo by Bar.".toList), false, 1, 2⟩
        (Except.ok ()) ⟨[], none⟩).2
      = [Effect.thread_sleep 3, Effect.say 2 ("sauce -qa Bar".toList)] := by
  decide

/-- C7: a status-source message updates at most one session slot and leaves
the other unchanged: a message starting with ".lc" overwrites only last_lc
(even when it carries an embed), and a non-trigger message with an embed
overwrites only last_sriracha_embed_message. -/
theorem c7_slot_independence (msg : InMessage) (r : Except TransportErr Unit)
    (st : SessionState) (h : is_sriracha_bot msg.author_id = true) :
    ((".lc".toList).isPrefixOf msg.content = true →
      handler_message msg r st = ({ st with last_lc := msg.content }, []))
    ∧ ((".lc".toList).isPrefixOf msg.content = false → msg.has_embed = true →
      handler_message msg r st
        = ({ st with last_sriracha_embed_message := some msg.id }, [])) := by
  constructor
  · intro h1
    dsimp only [handler_message]
    rw [h, h1]
    simp
  · intro h1 h2
    dsimp only [handler_message]
    rw [h, h1, h2]
    simp

/-- C7 witness: a trigger message carrying an embed overwrites only
last_lc; the tracked-message slot keeps its old value. -/
theorem c7_witness :
    handler_message ⟨BOTS_sriracha, (".lc abc".toList), true, 4, 5⟩
        (Except.ok ()) ⟨("old".toList), some 9⟩
      = (⟨(".lc abc".toList), some 9⟩, []) :=
  (c7_slot_independence ⟨BOTS_sriracha, (".lc abc".toList), true, 4, 5⟩
    (Except.ok ()) ⟨("old".toList), some 9⟩ (by decide)).1 (by decide)

/-- C8: when last_sriracha_embed_message is absent, en and jp make zero
transport calls and complete without error, whatever the transport call
results would have been. -/
theorem c8_reaction_noop (st : SessionState) (dr rr : Except TransportErr Unit)
    (h : st.last_sriracha_embed_message = none) :
    en st dr rr = ([], Except.ok ()) ∧ jp st dr rr = ([], Except.ok ()) := by
  exact ⟨by simp [en, h], by simp [jp, h]⟩

/-- C8 witness: the default startup state. -/
theorem c8_witness :
    en ⟨[], none⟩ (Except.ok ()) (Except.ok ()) = ([], Except.ok ())
    ∧ jp ⟨[], none⟩ (Except.ok ()) (Except.ok ()) = ([], Except.ok ()) :=
  c8_reaction_noop ⟨[], none⟩ (Except.ok ()) (Except.ok ()) rfl

theorem u32_from_str_le (s : List Char) (n : Nat)
    (h : u32_from_str s = Except.ok n) : n ≤ 4294967295 := by
  unfold u32_from_str at h
  split_ifs at h with h1 h2 h3 h4 <;> simp at h <;> omega

theorem strip_plus_of_digits (ds : List Char) (hne : ds ≠ [])
    (hdig : ds.all Char.isDigit = true) : strip_plus ds = ds := by
  unfold strip_plus
  cases ds with
  | nil => rfl
  | cons c t =>
    have hc : c.isDigit = true := by
      rw [List.all_cons] at hdig
      exact (Bool.and_eq_true_iff.mp hdig).1
    have hcp : c ≠ '+' := by
      intro hcp
      subst hcp
      exact absurd hc (by decide)
    simp [hcp]

theorem get_id_digits (ds : List Char) (hne : ds ≠ [])
    (hdig : ds.all Char.isDigit = true) :
    (digitsVal ds ≤ 4294967295 → get_id (some ds) = Except.ok (digitsVal ds))
    ∧ (4294967295 < digitsVal ds →
        get_id (some ds) = Except.error (ArgError.parse IntErrorKind.posOverflow)) := by
  have hsp := strip_plus_of_digits ds hne hdig
  have hne' : ds.isEmpty = false := by
    cases ds with
    | nil => exact absurd rfl hne
    | cons c t => rfl
  constructor
  · intro hv
    simp [get_id, u32_from_str, hne', hsp, hdig, hv]
  · intro hv
    simp [get_id, u32_from_str, hne', hsp, hdig, Nat.not_le.mpr hv]

/-- C10: the stage commands accept exactly the unsigned 32-bit range: every
successfully parsed argument is at most 4294967295; a digit string whose
value is in range parses to that value, and one whose value exceeds
4294967295 fails with the overflow argument-format error, making each
stage command fail without sending anything. -/
theorem c10_u32_range :
    (∀ s n, get_id (some s) = Except.ok n → n ≤ 4294967295)
    ∧ (∀ ds : List Char, ds ≠ [] → ds.all Char.isDigit = true →
        digitsVal ds ≤ 4294967295 → get_id (some ds) = Except.ok (digitsVal ds))
    ∧ (∀ ds : List Char, ds ≠ [] → ds.all Char.isDigit = true →
        4294967295 < digitsVal ds →
        get_id (some ds) = Except.error (ArgError.parse IntErrorKind.posOverflow))
    ∧ (∀ ch r (ds : List Char), ds ≠ [] → ds.all Char.isDigit = true →
        4294967295 < digitsVal ds →
        lc_list ch (some ds) r
            = ([], Except.error (CommandError.arg (ArgError.parse IntErrorKind.posOverflow)))
          ∧ st_move ch (some ds) r
            = ([], Except.error (CommandError.arg (ArgError.parse IntErrorKind.posOverflow)))
          ∧ qc_delete ch (some ds) r
            = ([], Except.error (CommandError.arg (ArgError.parse IntErrorKind.posOverflow)))) := by
  refine ⟨?_, ?_, ?_, ?_⟩
  · intro s n h
    simp only [get_id] at h
    rcases hu : u32_from_str s with e | m
    · rw [hu] at h
      exact absurd h (by simp)
    · rw [hu] at h
      simp only [Except.ok.injEq] at h
      subst h
      exact u32_from_str_le s _ hu
  · intro ds hne hdig hv
    exact (get_id_digits ds hne hdig).1 hv
  · intro ds hne hdig hv
    exact (get_id_digits ds hne hdig).2 hv
  · intro ch r ds hne hdig hv
    have hg := (get_id_digits ds hne hdig).2 hv
    exact ⟨by simp [lc_list, hg], by simp [st_move, hg], by simp [qc_delete, hg]⟩

/-- C10 witness: 4294967296 is rejected with the overflow error (also by
lc_list) and 4294967295 is accepted. -/
theorem c10_witness :
    get_id (some ("4294967296".toList))
      = Except.error (ArgError.parse IntErrorKind.posOverflow)
    ∧ lc_list 0 (some ("4294967296".toList)) (Except.ok ())
      = ([], Except.error (CommandError.arg (ArgError.parse IntErrorKind.posOverflow)))
    ∧ get_id (some ("4294967295".toList)) = Except.ok 4294967295 := by
  refine ⟨?_, ?_, ?_⟩
  · exact c10_u32_range.2.2.1 ("4294967296".toList) (by decide) (by decide) (by decide)
  · exact (c10_u32_range.2.2.2 0 (Except.ok ()) ("4294967296".toList)
      (by decide) (by decide) (by decide)).1
  · have h := c10_u32_range.2.1 ("4294967295".toList) (by decide) (by decide) (by decide)
    rw [show digitsVal ("4294967295".toList) = 4294967295 from by decide] at h
    exact h

end LcStreamliner
